import Mathlib

/-!
# Verification of `media_tracker.py`

A shallow embedding, in Lean 4, of the data model and operations of the
media-tracker Streamlit application (`src/media_tracker.py`), together with
theorems checking the natural-language specification against the code.

Conventions of the embedding:
* Python values that can be a string, an integer or `None` (spreadsheet cells,
  item ids, episode totals) are modelled by the inductive type `Value`.
* External HTTP services (TMDB, AniList, OpenLibrary, Google Sheets' TV
  details) are modelled as oracle functions passed explicitly as arguments;
  the request objects the code builds are reified so that theorems can speak
  about which calls are made and with which parameters.
* The Google sheet is a list of rows, each row a list of `Value` cells,
  the header being row 0 (gspread rows/columns are 1-indexed; the embedding
  uses 0-indexed positions and the doc comments state the correspondence).
-/

namespace MediaTracker

/-- A Python value as it occurs in the rows / item dictionaries of the app:
a string, an integer, or `None`. -/
inductive Value where
  | str (s : String)
  | int (n : Int)
  | null
deriving DecidableEq, Repr

/-- Python truthiness of a `Value` (`if media_id:` etc.): `None` and `0` and
`""` are falsy. -/
def Value.truthy : Value → Bool
  | .str s => s ≠ ""
  | .int n => n ≠ 0
  | .null => false

/-- A search-result item dictionary, as built by `process_tmdb_result`,
`process_anilist_results` and `process_open_library`.  Fields that every
producer fills are plain strings; `Total_Eps` and `ID` are heterogeneous in
the Python code (`"?"`, an int, `None`, an OpenLibrary key string) and are
modelled as `Value`.  `Links` is the `externalLinks` list of
`(site, url)` pairs; `Source` is the optional `"Source"` key (only
OpenLibrary items carry it). -/
structure Item where
  Title : String
  Type' : String
  Country : String
  Genres : String
  Image : String
  Overview : String
  Rating : String
  Backdrop : String
  Total_Eps : Value
  ID : Value
  Links : List (String × String) := []
  Source : Option String := none
deriving DecidableEq, Repr

/-- `TMDB_GENRE_MAP` from the source: display genre name ↦ TMDB genre id. -/
def TMDB_GENRE_MAP : List (String × Int) :=
  [("Action", 28), ("Adventure", 12), ("Animation", 16), ("Comedy", 35),
   ("Crime", 80), ("Documentary", 99), ("Drama", 18), ("Family", 10751),
   ("Fantasy", 14), ("History", 36), ("Horror", 27), ("Music", 10402),
   ("Mystery", 9648), ("Romance", 10749), ("Sci-Fi", 878), ("TV Movie", 10770),
   ("Thriller", 53), ("War", 10752), ("Western", 37),
   ("Action & Adventure", 10759), ("Sci-Fi & Fantasy", 10765), ("War & Politics", 10768)]

/-- Key lookup in `TMDB_GENRE_MAP` (`TMDB_GENRE_MAP.get(g)`). -/
def genreId (g : String) : Option Int :=
  (TMDB_GENRE_MAP.find? (fun p => p.1 = g)).map Prod.snd

/-- Membership test `g in TMDB_GENRE_MAP`. -/
def isTmdbGenre (g : String) : Bool := (genreId g).isSome

/-- `ID_TO_GENRE.get(gid, "Unknown")`: reverse lookup of a TMDB genre id
(`ID_TO_GENRE = {v: k for k, v in TMDB_GENRE_MAP.items()}`). -/
def idToGenre (gid : Int) : String :=
  match TMDB_GENRE_MAP.find? (fun p => p.2 = gid) with
  | some p => p.1
  | none => "Unknown"

/-- `BOOK_GENRES` from the source. -/
def BOOK_GENRES : List String :=
  ["Web Novel", "Fiction", "Fantasy", "Sci-Fi", "Mystery", "Thriller", "Romance",
   "History", "Biography", "Business", "Self-Help", "Psychology",
   "Philosophy", "Science", "Technology", "Manga", "Light Novel", "Computers",
   "Horror", "Poetry", "Comics", "Art", "Cooking"]

/-- `REQUIRED_HEADERS` from `get_google_sheet`: the fixed 14-column header of
the Google sheet. -/
def REQUIRED_HEADERS : List String :=
  ["Title", "Type", "Country", "Status", "Genres", "Image",
   "Overview", "Rating", "Backdrop", "Current_Season",
   "Current_Ep", "Total_Eps", "Total_Seasons", "ID"]

def tmdb_poster_base : String := "https://image.tmdb.org/t/p/w400"
def tmdb_backdrop_base : String := "https://image.tmdb.org/t/p/w780"

/-- A TMDB search/discover result object.  Attributes accessed by the code
via `getattr(res, ..., default)` are `Option`s; `vote_average` is kept as its
display string (the code only ever interpolates it into `f"{...}/10"`). -/
structure TMDBResult where
  original_language : Option String
  genre_ids : List Int := []
  poster_path : Option String := none
  title : Option String := none
  name : Option String := none
  overview : Option String := none
  vote_average : Option String := none
  backdrop_path : Option String := none
  id : Option Int := none
deriving DecidableEq, Repr

/-- The `detected_type` computation of `process_tmdb_result`
(src lines 524–534): a `Movie` is always `"Movies"`; otherwise the
`original_language` (defaulting to `'en'` when absent) selects the category
through the `if/elif` chain, with `"Web Series"` as the initial default. -/
def detectedType (mediaKind : String) (lang : Option String) : String :=
  let origin := lang.getD "en"
  if mediaKind = "Movie" then "Movies"
  else if origin = "ko" then "K-Drama"
  else if origin = "zh" then "C-Drama"
  else if origin = "th" then "Thai Drama"
  else if origin = "ja" then "Anime"
  else if origin = "en" then "Web Series"
  else "Web Series"

/-- `process_tmdb_result` (src lines 524–557).  Returns `none` where the
Python code `return`s without appending, otherwise `some` of the appended
item dictionary. -/
def process_tmdb_result (res : TMDBResult) (media_kind : String)
    (selected_types selected_genres : List String) : Option Item :=
  let origin := res.original_language.getD "en"
  let detected_type := detectedType media_kind res.original_language
  if detected_type ∉ selected_types then none
  else
    let res_genres := res.genre_ids.map idToGenre
    if selected_genres ≠ [] ∧ ¬ selected_genres.any (fun g => res_genres.contains g) then
      none
    else
      let img_url := match res.poster_path with
        | some p => tmdb_poster_base ++ p
        | none => ""
      some
        { Title := (res.title.orElse (fun _ => res.name)).getD "Unknown"
          Type' := detected_type
          Country := origin
          Genres := ", ".intercalate res_genres
          Image := img_url
          Overview := res.overview.getD "No overview."
          Rating := (res.vote_average.getD "0") ++ "/10"
          Backdrop := tmdb_backdrop_base ++ (res.backdrop_path.getD "")
          Total_Eps := .str "?"
          ID := match res.id with | some n => .int n | none => .null }

/-- Scanning the inside of a candidate tag match: consume characters that
are neither `'<'` nor `'>'` until a `'>'` closes the match (returning the
remainder) or a `'<'` or the end of the text aborts it. -/
def tagScan : List Char → Option (List Char)
  | [] => none
  | c :: rest =>
    if c = '<' then none
    else if c = '>' then some rest
    else tagScan rest

/-- One step of the `re.sub('<[^<]+?>', '', raw)` scanner: given the text
after a `'<'`, if it starts with a non-empty run of characters that are
neither `'<'` nor `'>'`, followed by `'>'`, return the remainder after the
`'>'` (the lazy `[^<]+?` stops at the first `'>'`). -/
def tagSplit : List Char → Option (List Char)
  | [] => none
  | c :: rest => if c = '<' ∨ c = '>' then none else tagScan rest

theorem tagScan_length {l r : List Char} (h : tagScan l = some r) :
    r.length < l.length := by
  induction l with
  | nil => simp [tagScan] at h
  | cons c rest ih =>
    unfold tagScan at h
    split at h
    · simp at h
    · split at h
      · cases h; simp
      · exact Nat.lt_trans (ih h) (Nat.lt_succ_self _)

theorem tagSplit_length {l r : List Char} (h : tagSplit l = some r) :
    r.length < l.length := by
  cases l with
  | nil => simp [tagSplit] at h
  | cons c rest =>
    simp only [tagSplit] at h
    by_cases hc : c = '<' ∨ c = '>'
    · simp [hc] at h
    · rw [if_neg hc] at h
      exact Nat.lt_trans (tagScan_length h) (Nat.lt_succ_self _)

/-- `re.sub('<[^<]+?>', '', raw)` on a character list: drop every maximal
lazy tag match, keep everything else. -/
def stripAux : List Char → List Char
  | [] => []
  | c :: rest =>
    if c = '<' then
      match h : tagSplit rest with
      | some r => stripAux r
      | none => c :: stripAux rest
    else c :: stripAux rest
termination_by l => l.length
decreasing_by
  · exact Nat.lt_trans (tagSplit_length h) (Nat.lt_succ_self _)
  · exact Nat.lt_succ_self _
  · exact Nat.lt_succ_self _

/-- The HTML-tag removal applied to AniList descriptions. -/
def stripTags (s : String) : String := String.mk (stripAux s.data)

/-- An AniList media object as selected by the GraphQL query of
`fetch_anilist_list` (title, coverImage, bannerImage, genres,
countryOfOrigin, description, averageScore, episodes/chapters/volumes,
externalLinks). -/
structure AniListMedia where
  title_english : Option String := none
  title_romaji : String := ""
  coverImage_large : Option String := none
  bannerImage : Option String := none
  genres : List String := []
  countryOfOrigin : Option String := none
  description : Option String := none
  averageScore : Option Int := none
  episodes : Option Int := none
  chapters : Option Int := none
  volumes : Option Int := none
  externalLinks : List (String × String) := []
deriving DecidableEq, Repr

/-- Python `a or b` on optional integers, where `0` is falsy (the
`res.get('episodes') or res.get('chapters') or ...` chain). -/
def orFalsyInt (a : Option Int) (k : Unit → Value) : Value :=
  match a with
  | some n => if n = 0 then k () else .int n
  | none => k ()

/-- `f"{avg_score/10}/10"`: an AniList `averageScore` is an integer in
0..100, and Python renders `n/10` with one decimal digit. -/
def formatScore (n : Int) : String :=
  toString (n / 10) ++ "." ++ toString (n % 10) ++ "/10"

/-- The body of the `for res in res_list:` loop of `process_anilist_results`
(src lines 383–422): `none` where the loop `continue`s, otherwise the
appended item. -/
def processAnilistOne (res : AniListMedia) (forced_type : String)
    (selected_genres : List String) : Option Item :=
  let origin := res.countryOfOrigin.getD "JP"
  let final_type := forced_type
  if forced_type = "Donghua" ∧ origin ≠ "CN" then none
  else if forced_type = "Manhwa" ∧ origin ≠ "KR" then none
  else if forced_type = "Manhua" ∧ origin ≠ "CN" then none
  else
    let res_genres := res.genres
    let filtered_genres := selected_genres.filter (fun g => g ≠ "Web Novel")
    if selected_genres ≠ [] ∧ filtered_genres ≠ [] ∧
        ¬ filtered_genres.any (fun g => res_genres.contains g) then none
    else
      let raw := res.description.getD ""
      let clean := if raw ≠ "" then stripTags raw else "No description."
      let total := orFalsyInt res.episodes (fun _ =>
        orFalsyInt res.chapters (fun _ =>
          orFalsyInt res.volumes (fun _ => .str "?")))
      let rating_str := match res.averageScore with
        | some n => if n = 0 then "?/10" else formatScore n
        | none => "?/10"
      some
        { Title := match res.title_english with
            | some e => if e ≠ "" then e else res.title_romaji
            | none => res.title_romaji
          Type' := final_type
          Country := origin
          Genres := ", ".intercalate res_genres
          Image := res.coverImage_large.getD ""
          Overview := clean
          Rating := rating_str
          Backdrop := res.bannerImage.getD ""
          Total_Eps := total
          ID := .null
          Links := res.externalLinks }

/-- `process_anilist_results` (src lines 383–422): process each result in
order, appending those that survive the country and genre filters. -/
def process_anilist_results (res_list : List AniListMedia) (forced_type : String)
    (selected_genres : List String) : List Item :=
  res_list.filterMap (fun res => processAnilistOne res forced_type selected_genres)

/-- The GraphQL request built by `fetch_anilist_list` (src lines 278–305):
the `Page(page: $p, perPage: 15)` query with its optional
search/genre/country/format variables and the computed sort. -/
structure AniListReq where
  mediaType : String
  page : Nat
  perPage : Nat
  sort : String
  search : Option String
  genre_in : Option (List String)
  countryOfOrigin : Option String
  format : Option String
deriving DecidableEq, Repr

/-- Request construction of `fetch_anilist_list`: sort selection and the
`if query: ... if genres: ... if country: ... if format:` variable guards;
`perPage` is the literal `15` of the query string. -/
def mkAniListReq (query : String) (type_ : String) (genres : List String)
    (sort_opt : String) (page : Nat) (country format : Option String) : AniListReq :=
  let anilist_sort :=
    if sort_opt = "Top Rated" then "SCORE_DESC"
    else if sort_opt = "Relevance" ∧ query ≠ "" then "SEARCH_MATCH"
    else "POPULARITY_DESC"
  { mediaType := type_
    page := page
    perPage := 15
    sort := anilist_sort
    search := if query ≠ "" then some query else none
    genre_in := if genres ≠ [] then some genres else none
    countryOfOrigin := country
    format := format }

/-- `fetch_anilist_list` (src lines 278–310) with the AniList endpoint
abstracted as an oracle from requests to response media lists. -/
def fetch_anilist_list (aniO : AniListReq → List AniListMedia)
    (query type_ : String) (genres : List String) (sort_opt : String)
    (page : Nat) (country format : Option String) : List AniListMedia :=
  aniO (mkAniListReq query type_ genres sort_opt page country format)

/-- An OpenLibrary search document with the fields `process_open_library`
reads; `ratings_average` is kept as the display string of
`round(rating_val, 1)` (the code only interpolates it into `f"{...}/5"`). -/
structure OLDoc where
  cover_i : Option Int := none
  title : Option String := none
  author_name : List String := []
  first_publish_year : Option Int := none
  first_sentence : List String := []
  ratings_average : Option String := none
  subject : List String := []
  number_of_pages_median : Option Int := none
  key : Option String := none
deriving DecidableEq, Repr

/-- One item of `process_open_library` (src lines 352–381). -/
def processOpenLibraryOne (item : OLDoc) (detected_type : String) : Item :=
  let img_url := match item.cover_i with
    | some cid =>
        if cid ≠ 0 then "https://covers.openlibrary.org/b/id/" ++ toString cid ++ "-L.jpg"
        else "https://via.placeholder.com/300x450?text=No+Cover"
    | none => "https://via.placeholder.com/300x450?text=No+Cover"
  let title0 := item.title.getD "Unknown"
  let authors := ", ".intercalate (item.author_name.take 2)
  let title := if authors ≠ "" then title0 ++ " - " ++ authors else title0
  let desc0 := "First published in " ++
    (match item.first_publish_year with
      | some y => toString y
      | none => "Unknown") ++ "."
  let desc := match item.first_sentence with
    | fs0 :: _ => "\"" ++ fs0 ++ "\" - " ++ desc0
    | [] => desc0
  { Title := title
    Type' := detected_type
    Country := "International"
    Genres := ", ".intercalate (item.subject.take 3)
    Image := img_url
    Overview := desc
    Rating := (item.ratings_average.getD "0") ++ "/5"
    Backdrop := ""
    Total_Eps := .str (match item.number_of_pages_median with
      | some n => toString n
      | none => "?")
    ID := match item.key with | some k => .str k | none => .null
    Source := some "OpenLibrary"
    Links := [] }

/-- `process_open_library` (src lines 352–381): every document is appended. -/
def process_open_library (items : List OLDoc) (detected_type : String) : List Item :=
  items.map (fun item => processOpenLibraryOne item detected_type)

/-- The request parameters of `fetch_open_library` (src lines 312–324). -/
structure OLParams where
  limit : Nat
  q : Option String
  subject : Option String
deriving DecidableEq, Repr

/-- Parameter construction of `fetch_open_library`: `limit` is the literal
`15`; with a query the genre (when truthy and not `"Web Novel"`) is folded
into `q` as a `subject:` clause, otherwise a truthy genre becomes the
`subject` parameter, defaulting to `"fiction"`. -/
def mkOLParams (query : String) (genre : Option String) : OLParams :=
  if query ≠ "" then
    let q := match genre with
      | some g => if g ≠ "" ∧ g ≠ "Web Novel" then query ++ " subject:" ++ g else query
      | none => query
    { limit := 15, q := some q, subject := none }
  else
    match genre with
    | some g =>
        if g ≠ "" then { limit := 15, q := none, subject := some g }
        else { limit := 15, q := none, subject := some "fiction" }
    | none => { limit := 15, q := none, subject := some "fiction" }

/-- `fetch_open_library` (src lines 312–332) with the OpenLibrary endpoint
abstracted as an oracle from parameters to document lists. -/
def fetch_open_library (olO : OLParams → List OLDoc)
    (query : String) (genre : Option String) : List OLDoc :=
  olO (mkOLParams query genre)

/-- A TMDB API request as issued by `run_tmdb` inside `search_unified`:
either a `search.movies`/`search.tv_shows` call or a
`discover.discover_movies`/`discover.discover_tv_shows` call with the
kwargs the code assembles (`sort_by`, `page`, `vote_count.gte: 5`, optional
`with_genres` and `with_original_language`). -/
inductive TMDBCall where
  | searchMovies (q : String) (page : Nat)
  | searchTV (q : String) (page : Nat)
  | discoverMovies (sort_by : String) (page : Nat) (vote_count_gte : Nat)
      (with_genres with_original_language : Option String)
  | discoverTV (sort_by : String) (page : Nat) (vote_count_gte : Nat)
      (with_genres with_original_language : Option String)
deriving DecidableEq, Repr

/-- The nested `run_tmdb` closure of `search_unified` (src lines 443–469):
builds the query (suffixing `Korean`/`Chinese` for K-Drama/C-Drama searches),
issues one search or discover call, post-filters discover results by
language, and processes each surviving result. -/
def run_tmdb (tmdbO : TMDBCall → List TMDBResult) (query : String) (page : Nat)
    (tmdb_sort g_ids : String) (selected_types selected_genres : List String)
    (media_kind specific_type : String) (lang_filter : Option String) :
    List Item × TMDBCall :=
  let active_q :=
    if query ≠ "" ∧ specific_type = "K-Drama" then query ++ " Korean"
    else if query ≠ "" ∧ specific_type = "C-Drama" then query ++ " Chinese"
    else query
  let call :=
    if active_q ≠ "" then
      if media_kind = "Movie" then TMDBCall.searchMovies active_q page
      else TMDBCall.searchTV active_q page
    else
      let wg := if g_ids ≠ "" then some g_ids else none
      if media_kind = "Movie" then TMDBCall.discoverMovies tmdb_sort page 5 wg lang_filter
      else TMDBCall.discoverTV tmdb_sort page 5 wg lang_filter
  let items := (tmdbO call).filterMap (fun r =>
    let res_lang := r.original_language.getD "en"
    let matched :=
      if query = "" then
        if specific_type = "K-Drama" ∧ res_lang ≠ "ko" then false
        else if specific_type = "C-Drama" ∧ res_lang ≠ "zh" then false
        else if specific_type = "Thai Drama" ∧ res_lang ≠ "th" then false
        else true
      else true
    if matched then process_tmdb_result r media_kind selected_types selected_genres
    else none)
  (items, call)

/-- The `live_action` list of `search_unified`. -/
def live_action : List String := ["Movies", "Web Series", "K-Drama", "C-Drama", "Thai Drama"]

/-- Section 1 of `search_unified` (src lines 428–475): the TMDB queries and
the items they contribute, in the order of the five `if ... in selected_types`
dispatches. -/
def tmdbSection (tmdbO : TMDBCall → List TMDBResult) (query : String)
    (selected_types selected_genres : List String) (sort_option : String)
    (page : Nat) : List Item × List TMDBCall :=
  if ∃ t ∈ live_action, t ∈ selected_types then
    let tmdb_genres := selected_genres.filter (fun g => isTmdbGenre g)
    let g_ids :=
      if tmdb_genres ≠ [] then
        "|".intercalate (tmdb_genres.map (fun g =>
          match genreId g with
          | some i => toString i
          | none => "None"))
      else ""
    let tmdb_sort := if sort_option = "Top Rated" then "vote_average.desc" else "popularity.desc"
    let rt := run_tmdb tmdbO query page tmdb_sort g_ids selected_types selected_genres
    let parts :=
      (if "Movies" ∈ selected_types then [rt "Movie" "Movies" none] else []) ++
      (if "Web Series" ∈ selected_types then [rt "TV" "Web Series" none] else []) ++
      (if "K-Drama" ∈ selected_types then [rt "TV" "K-Drama" (some "ko")] else []) ++
      (if "C-Drama" ∈ selected_types then [rt "TV" "C-Drama" (some "zh")] else []) ++
      (if "Thai Drama" ∈ selected_types then [rt "TV" "Thai Drama" (some "th")] else [])
    ((parts.map Prod.fst).flatten, parts.map Prod.snd)
  else ([], [])

/-- The AniList category list of the section-2 guard of `search_unified`. -/
def anilist_types : List String := ["Anime", "Donghua", "Novel", "Manga", "Manhwa", "Manhua"]

/-- Section 2 of `search_unified` (src lines 477–504): the AniList requests
with their forced types, in dispatch order, including the extra
KR/CN `NOVEL` requests when `"Web Novel"` is among the selected genres. -/
def aniSection (aniO : AniListReq → List AniListMedia) (query : String)
    (selected_types selected_genres : List String) (sort_option : String)
    (page : Nat) : List Item × List AniListReq :=
  if ∃ t ∈ anilist_types, t ∈ selected_types then
    let steps : List (AniListReq × String) :=
      (if "Anime" ∈ selected_types then
        [(mkAniListReq query "ANIME" selected_genres sort_option page none none, "Anime")]
       else []) ++
      (if "Donghua" ∈ selected_types then
        [(mkAniListReq query "ANIME" selected_genres sort_option page (some "CN") none, "Donghua")]
       else []) ++
      (if "Manga" ∈ selected_types then
        [(mkAniListReq query "MANGA" selected_genres sort_option page (some "JP") none, "Manga")]
       else []) ++
      (if "Manhwa" ∈ selected_types then
        [(mkAniListReq query "MANGA" selected_genres sort_option page (some "KR") none, "Manhwa")]
       else []) ++
      (if "Manhua" ∈ selected_types then
        [(mkAniListReq query "MANGA" selected_genres sort_option page (some "CN") none, "Manhua")]
       else []) ++
      (if "Novel" ∈ selected_types then
        [(mkAniListReq query "MANGA" selected_genres sort_option page none (some "NOVEL"), "Novel")] ++
        (if "Web Novel" ∈ selected_genres then
          [(mkAniListReq query "MANGA" selected_genres sort_option page (some "KR") (some "NOVEL"), "Novel"),
           (mkAniListReq query "MANGA" selected_genres sort_option page (some "CN") (some "NOVEL"), "Novel")]
         else [])
       else [])
    ((steps.map (fun s => process_anilist_results (aniO s.1) s.2 selected_genres)).flatten,
     steps.map Prod.fst)
  else ([], [])

/-- Section 3 of `search_unified` (src lines 506–520): the OpenLibrary
requests (Novel first, then Book) with the first selected book genre. -/
def olSection (olO : OLParams → List OLDoc) (query : String)
    (selected_types selected_genres : List String) : List Item × List OLParams :=
  if "Book" ∈ selected_types ∨ "Novel" ∈ selected_types then
    let target_genre : Option String :=
      if selected_genres ≠ [] then
        match selected_genres.filter (fun g => g ∈ BOOK_GENRES) with
        | g :: _ => some g
        | [] => none
      else none
    let steps : List (OLParams × String) :=
      (if "Novel" ∈ selected_types then
        [(mkOLParams (if query ≠ "" then query ++ " novel" else "fantasy novel") target_genre, "Novel")]
       else []) ++
      (if "Book" ∈ selected_types then [(mkOLParams query target_genre, "Book")] else [])
    ((steps.map (fun s => process_open_library (olO s.1) s.2)).flatten, steps.map Prod.fst)
  else ([], [])

/-- An external API call performed by `search_unified`, tagged by catalog. -/
inductive ApiCall where
  | tmdb (c : TMDBCall)
  | anilist (r : AniListReq)
  | openlib (p : OLParams)
deriving DecidableEq, Repr

def ApiCall.isTmdb : ApiCall → Bool
  | .tmdb _ => true
  | _ => false

def ApiCall.isAnilist : ApiCall → Bool
  | .anilist _ => true
  | _ => false

def ApiCall.isOpenlib : ApiCall → Bool
  | .openlib _ => true
  | _ => false

/-- `search_unified` (src lines 425–522) with its three external services
abstracted as oracles.  Returns the accumulated `results_data` list and the
trace of external calls made, in program order. -/
def search_unified (tmdbO : TMDBCall → List TMDBResult)
    (aniO : AniListReq → List AniListMedia) (olO : OLParams → List OLDoc)
    (query : String) (selected_types selected_genres : List String)
    (sort_option : String) (page : Nat) : List Item × List ApiCall :=
  let t := tmdbSection tmdbO query selected_types selected_genres sort_option page
  let a := aniSection aniO query selected_types selected_genres sort_option page
  let o := olSection olO query selected_types selected_genres
  (t.1 ++ a.1 ++ o.1,
   t.2.map ApiCall.tmdb ++ a.2.map ApiCall.anilist ++ o.2.map ApiCall.openlib)

/-- The search tab's session state: `st.session_state.search_page` and
`st.session_state.search_results`. -/
structure SearchState where
  search_page : Nat
  search_results : List Item
deriving DecidableEq, Repr

/-- The `"Load More Results"` handler (src lines 639–644):
increments the page, re-runs `search_unified` with the same form values at
the new page, and extends the accumulated results. -/
def load_more (tmdbO : TMDBCall → List TMDBResult)
    (aniO : AniListReq → List AniListMedia) (olO : OLParams → List OLDoc)
    (query : String) (selected_types selected_genres : List String)
    (sort_option : String) (st : SearchState) : SearchState :=
  let p := st.search_page + 1
  { search_page := p
    search_results := st.search_results ++
      (search_unified tmdbO aniO olO query selected_types selected_genres sort_option p).1 }

/-- The attributes of a `tv_api.details(media_id)` response that
`fetch_details_and_add` reads via `getattr` with defaults. -/
structure TVDetails where
  number_of_seasons : Option Int := none
  number_of_episodes : Option Int := none
deriving DecidableEq, Repr

/-- `sheet.col_values(1)`: the first cell of every row (including the
header row), the empty string standing for a missing cell. -/
def col1 (sheet : List (List Value)) : List Value :=
  sheet.map (fun r => r.getD 0 (.str ""))

/-- The live-action TV types for which `fetch_details_and_add` asks TMDB for
season/episode totals. -/
def watch_types : List String := ["Web Series", "K-Drama", "C-Drama", "Thai Drama"]

/-- The item types whose default status is `"Plan to Read"`. -/
def read_types : List String := ["Manga", "Manhwa", "Manhua", "Book", "Novel"]

/-- The `total_seasons`/`total_eps` computation of `fetch_details_and_add`
(src lines 139–149): for a live-action TV item with a truthy id, ask the TV
details oracle, reading `number_of_seasons` (default `1`) and
`number_of_episodes` (default `"?"`); both keep their prior values
(`1`, `item['Total_Eps']`) on the exception path or otherwise. -/
def addTotals (tvApi : Value → Option TVDetails) (item : Item) : Int × Value :=
  if item.Type' ∈ watch_types ∧ item.ID.truthy then
    match tvApi item.ID with
    | some d =>
        (d.number_of_seasons.getD 1,
         match d.number_of_episodes with
         | some n => Value.int n
         | none => Value.str "?")
    | none => (1, item.Total_Eps)
  else (1, item.Total_Eps)

/-- `fetch_details_and_add` (src lines 127–168).  The TMDB `TV().details`
call is the oracle `tvApi` (`none` models the `except: pass` path).  The
duplicate check reads `sheet.col_values(1)`; on success the `row_data`
list is appended.  Returns the Python return value and the resulting
sheet. -/
def fetch_details_and_add (tvApi : Value → Option TVDetails) (item : Item)
    (sheet : List (List Value)) : Bool × List (List Value) :=
  if (Value.str item.Title) ∈ col1 sheet then (false, sheet)
  else
    let totals := addTotals tvApi item
    let default_status := if item.Type' ∈ read_types then "Plan to Read" else "Plan to Watch"
    (true, sheet ++
      [[.str item.Title, .str item.Type', .str item.Country, .str default_status,
        .str item.Genres, .str item.Image, .str item.Overview, .str item.Rating,
        .str item.Backdrop, .int 1, .int 0, totals.2, .int totals.1, item.ID]])

/-- First index of a matching cell within one row. -/
def findInRow (row : List Value) (v : Value) : Option Nat :=
  row.findIdx? (fun c => c = v)

/-- `sheet.find(value)`: the first matching cell in row-major order, as a
0-indexed `(row, column)` pair (gspread's `Cell.row`/`Cell.col` are these
plus one), `none` when no cell matches. -/
def findCell : List (List Value) → Value → Option (Nat × Nat)
  | [], _ => none
  | r :: rs, v =>
    match findInRow r v with
    | some c => some (0, c)
    | none => (findCell rs v).map (fun p => (p.1 + 1, p.2))

/-- Writing one cell of a row, padding with empty cells when the column is
beyond the row's current width (as the spreadsheet grid does). -/
def setInRow (row : List Value) (c : Nat) (v : Value) : List Value :=
  if c < row.length then row.set c v
  else row ++ List.replicate (c - row.length) (.str "") ++ [v]

/-- `sheet.update_cell(r+1, c+1, v)` on the row/column 0-indexed sheet. -/
def setCell (sheet : List (List Value)) (r c : Nat) (v : Value) : List (List Value) :=
  sheet.set r (setInRow (sheet.getD r []) c v)

/-- The cell of the sheet at 0-indexed `(r, c)`, if present. -/
def getCell (sheet : List (List Value)) (r c : Nat) : Option Value :=
  (sheet.get? r).bind (fun row => row.get? c)

/-- `update_status_in_sheet` (src lines 170–181): find the first cell whose
value is `title`; if found, write columns 4, 10 and 11 (1-indexed; here 3,
9, 10) of that cell's row with the new status, season and episode. -/
def update_status_in_sheet (title new_status : String) (new_season new_ep : Int)
    (sheet : List (List Value)) : List (List Value) :=
  match findCell sheet (.str title) with
  | none => sheet
  | some (r, _) =>
      setCell (setCell (setCell sheet r 3 (.str new_status)) r 9 (.int new_season))
        r 10 (.int new_ep)

/-- `bulk_update_order` (src lines 195–205): read the header row, clear the
sheet, append the header, then append every row of `new_df` as strings. -/
def bulk_update_order (sheet : List (List Value)) (new_df : List (List String)) :
    List (List Value) :=
  (sheet.getD 0 []) :: new_df.map (fun r => r.map Value.str)

/-- `int(float(s))` on the decimal forms that occur in sheet cells
(`"603"`, `"603.0"`, …): the integer part, truncated toward zero; `none`
when the string is not such a decimal (the `except` path). -/
def pyIntOfFloatStr (s : String) : Option Int :=
  match s.split (fun c => c = '.') with
  | [a] => a.toInt?
  | [a, b] => if b.all Char.isDigit then a.toInt? else none
  | _ => none

/-- `clean_id = int(float(tmdb_id))` with the surrounding `try/except`. -/
def cleanId : Value → Option Int
  | .int n => some n
  | .str s => pyIntOfFloatStr s
  | .null => none

/-- A TMDB season endpoint response: the `episodes` array (elements
abstracted) and the season `name`. -/
structure SeasonResp where
  episodes : List Unit := []
  name : Option String := none
deriving DecidableEq, Repr

/-- The dictionary `get_season_details` returns on a 200 response. -/
structure SeasonInfo where
  episode_count : Nat
  name : Option String
deriving DecidableEq, Repr

/-- `get_season_details` (src lines 239–250), the HTTP endpoint abstracted
as an oracle (`none` models a non-200 status or an exception). -/
def get_season_details (api : Int × Int → Option SeasonResp)
    (tmdb_id : Value) (season_num : Int) : Option SeasonInfo :=
  if ¬ tmdb_id.truthy then none
  else
    match cleanId tmdb_id with
    | none => none
    | some cid =>
        match api (cid, season_num) with
        | some resp => some { episode_count := resp.episodes.length, name := resp.name }
        | none => none

/-- The GraphQL variables of `fetch_anilist_data_single`. -/
structure ALSingleReq where
  s : String
  t : String
  f : Option String
deriving DecidableEq, Repr

/-- The single-media payload selected by `fetch_anilist_data_single`. -/
structure ALSingleMedia where
  id : Option Int := none
  trailer_id : Option String := none
  trailer_site : Option String := none
  externalLinks : List (String × String) := []
  episodes : Option Int := none
  chapters : Option Int := none
  volumes : Option Int := none
deriving DecidableEq, Repr

/-- `fetch_anilist_data_single` (src lines 252–276), the endpoint abstracted
as an oracle; `none` models both the empty `Page.media` list and the
exception path (the Python code returns `{}` there). -/
def fetch_anilist_data_single (api : ALSingleReq → Option ALSingleMedia)
    (title media_type : String) (format_in : Option String) : Option ALSingleMedia :=
  api { s := title, t := media_type, f := format_in }

/-- The memoization performed by `@st.cache_data(ttl=3600)`: a cache of
`(arguments, value, entry time)` triples.  A call first looks for an entry
with equal arguments; a fresh one (younger than `ttl` seconds) is returned
as-is without invoking the underlying function, otherwise the function runs
(`f` may depend on the current time `t`, modelling a changing external
service) and the result is stored.  The returned boolean records whether
the underlying function (and hence the external API) was invoked. -/
def ttlCall {α β : Type} [DecidableEq α] (ttl : Nat) (f : Nat → α → β)
    (t : Nat) (x : α) (cache : List (α × β × Nat)) :
    β × List (α × β × Nat) × Bool :=
  match cache.find? (fun e => e.1 = x) with
  | some e =>
      if t - e.2.2 < ttl then (e.2.1, cache, false)
      else
        let v := f t x
        (v, (x, v, t) :: cache, true)
  | none =>
      let v := f t x
      (v, (x, v, t) :: cache, true)

/-- The argument tuple of `fetch_anilist_list`, used as its cache key. -/
structure ALListArgs where
  query : String
  type_ : String
  genres : List String
  sort_opt : String
  page : Nat
  country : Option String
  format : Option String
deriving DecidableEq, Repr

/-- `@st.cache_data(ttl=3600)` applied to `get_season_details`. -/
def get_season_details_cached (api : Nat → Int × Int → Option SeasonResp)
    (t : Nat) (args : Value × Int)
    (cache : List ((Value × Int) × Option SeasonInfo × Nat)) :
    Option SeasonInfo × List ((Value × Int) × Option SeasonInfo × Nat) × Bool :=
  ttlCall 3600 (fun t' a => get_season_details (api t') a.1 a.2) t args cache

/-- `@st.cache_data(ttl=3600)` applied to `fetch_anilist_data_single`. -/
def fetch_anilist_data_single_cached (api : Nat → ALSingleReq → Option ALSingleMedia)
    (t : Nat) (args : String × String × Option String)
    (cache : List ((String × String × Option String) × Option ALSingleMedia × Nat)) :
    Option ALSingleMedia × List ((String × String × Option String) × Option ALSingleMedia × Nat) × Bool :=
  ttlCall 3600 (fun t' a => fetch_anilist_data_single (api t') a.1 a.2.1 a.2.2) t args cache

/-- `@st.cache_data(ttl=3600)` applied to `fetch_anilist_list`. -/
def fetch_anilist_list_cached (api : Nat → AniListReq → List AniListMedia)
    (t : Nat) (args : ALListArgs)
    (cache : List (ALListArgs × List AniListMedia × Nat)) :
    List AniListMedia × List (ALListArgs × List AniListMedia × Nat) × Bool :=
  ttlCall 3600
    (fun t' a => fetch_anilist_list (api t') a.query a.type_ a.genres a.sort_opt a.page a.country a.format)
    t args cache

/-- `@st.cache_data(ttl=3600)` applied to `fetch_open_library`. -/
def fetch_open_library_cached (api : Nat → OLParams → List OLDoc)
    (t : Nat) (args : String × Option String)
    (cache : List ((String × Option String) × List OLDoc × Nat)) :
    List OLDoc × List ((String × Option String) × List OLDoc × Nat) × Bool :=
  ttlCall 3600 (fun t' a => fetch_open_library (api t') a.1 a.2) t args cache

/-- A gallery dataframe row: the 14 header columns as strings
(`sheet.get_all_values()` yields strings and `pd.DataFrame` keeps them). -/
abbrev Row := List String

/-- Column `Title` of a dataframe row. -/
def rowTitle (r : Row) : String := r.getD 0 ""

/-- Column `Type` of a dataframe row. -/
def rowType (r : Row) : String := r.getD 1 ""

/-- `subset.index.tolist()` for `subset = df[df['Type'] == category]`:
the (ascending) positions of the category's rows.  The dataframe index is
the row position (`0..n-1`), as after `get_all_values` with no filters. -/
def subsetIdx (df : List Row) (category : String) : List Nat :=
  (List.range df.length).filter (fun i => rowType (df.getD i []) == category)

/-- `subset['Title'].tolist()`: the titles of the category's rows in
dataframe order; the list handed to the drag-and-drop widget. -/
def subsetTitles (df : List Row) (category : String) : List String :=
  (subsetIdx df category).map (fun i => rowTitle (df.getD i []))

/-- The `title_map` dictionary of the reorder handler: title ↦ the queue of
dataframe indices still unassigned for that title (insertion-ordered, as a
Python dict). -/
abbrev TitleMap := List (String × List Nat)

/-- `title_map.setdefault(title, []).append(idx)`: append `i` to the entry
of `t`, creating the entry at the end when absent. -/
def insertTM : TitleMap → String → Nat → TitleMap
  | [], t, i => [(t, [i])]
  | (s, l) :: rest, t, i =>
    if s = t then (s, l ++ [i]) :: rest
    else (s, l) :: insertTM rest t i

/-- Building `title_map` from the `(df.loc[idx, 'Title'], idx)` pairs of the
category's rows, in subset order (src lines 700–704). -/
def buildTitleMap (ps : List (String × Nat)) : TitleMap :=
  ps.foldl (fun tm p => insertTM tm p.1 p.2) []

/-- `if title in title_map and title_map[title]:
new_order_indices.append(title_map[title].pop(0))`: take the first queued
index of `t` (first-come-first-served), if any. -/
def popTM : TitleMap → String → Option Nat × TitleMap
  | [], _ => (none, [])
  | (s, l) :: rest, t =>
    if s = t then
      match l with
      | [] => (none, (s, l) :: rest)
      | i :: is => (some i, (s, is) :: rest)
    else
      let r := popTM rest t
      (r.1, (s, l) :: r.2)

/-- The `for title in sorted_titles:` loop building `new_order_indices`
(src lines 705–708). -/
def runPops (tm : TitleMap) : List String → List Nat
  | [] => []
  | t :: ts =>
    let r := popTM tm t
    match r.1 with
    | some i => i :: runPops r.2 ts
    | none => runPops r.2 ts

/-- The `for slot, new_idx in zip(slots_to_fill, new_order_indices):`
assignments into `final_global_indices` (src lines 709–712). -/
def fillSlots (base : List Nat) (ps : List (Nat × Nat)) : List Nat :=
  ps.foldl (fun b p => b.set p.1 p.2) base

/-- The gallery reorder handler (src lines 692–714): given the user's new
title order for one category, rebuild the dataframe via `title_map`,
`new_order_indices`, `slots_to_fill` and `df.iloc[final_global_indices]`.
`slots_to_fill = sorted(original_indices)` is `subsetIdx` itself, which is
ascending by construction. -/
def reorder_category (df : List Row) (category : String)
    (sorted_titles : List String) : List Row :=
  let original_indices := subsetIdx df category
  let title_map := buildTitleMap (original_indices.map (fun i => (rowTitle (df.getD i []), i)))
  let new_order_indices := runPops title_map sorted_titles
  let final_global_indices := fillSlots (List.range df.length)
    (original_indices.zip new_order_indices)
  final_global_indices.map (fun i => df.getD i [])

/-! ## Theorems -/

/-- C1: `process_tmdb_result` assigns the display category by string
matching: a `"Movie"` media kind always yields `"Movies"`; otherwise the
result's `original_language` maps `ko` to K-Drama, `zh` to C-Drama, `th` to
Thai Drama, `ja` to Anime, `en` to Web Series, and any other or missing
language to the default `"Web Series"`; every item the function emits
carries exactly this detected type. -/
theorem tmdb_type_detection_rules :
    (∀ lang, detectedType "Movie" lang = "Movies") ∧
    (∀ mk, mk ≠ "Movie" →
      detectedType mk (some "ko") = "K-Drama" ∧
      detectedType mk (some "zh") = "C-Drama" ∧
      detectedType mk (some "th") = "Thai Drama" ∧
      detectedType mk (some "ja") = "Anime" ∧
      detectedType mk (some "en") = "Web Series" ∧
      detectedType mk none = "Web Series" ∧
      ∀ l, l ∉ (["ko", "zh", "th", "ja", "en"] : List String) →
        detectedType mk (some l) = "Web Series") ∧
    (∀ res mk selT selG item, process_tmdb_result res mk selT selG = some item →
      item.Type' = detectedType mk res.original_language) := by
  refine ⟨fun lang => by simp [detectedType], fun mk h => ?_, ?_⟩
  · refine ⟨by simp [detectedType, h], by simp [detectedType, h],
      by simp [detectedType, h], by simp [detectedType, h],
      by simp [detectedType, h], by simp [detectedType, h], fun l hl => ?_⟩
    simp only [List.mem_cons, List.mem_singleton, not_or] at hl
    obtain ⟨h1, h2, h3, h4, h5⟩ := hl
    simp [detectedType, h, h1, h2, h3, h4, h5]
  · intro res mk selT selG item hp
    simp only [process_tmdb_result] at hp
    split at hp
    · exact absurd hp (by simp)
    · split at hp
      · exact absurd hp (by simp)
      · injection hp with hp
        subst hp
        rfl

/-- Concrete instances of `tmdb_type_detection_rules`: a TV result in
Korean is a K-Drama, and one in French falls to the Web Series default. -/
theorem tmdb_type_detection_rules_witness :
    detectedType "TV" (some "ko") = "K-Drama" ∧
    detectedType "TV" (some "fr") = "Web Series" :=
  ⟨(tmdb_type_detection_rules.2.1 "TV" (by decide)).1,
   (tmdb_type_detection_rules.2.1 "TV" (by decide)).2.2.2.2.2.2 "fr" (by decide)⟩

/-- A result whose country of origin fails the Donghua CN-check is skipped. -/
theorem processAnilistOne_none_donghua (res : AniListMedia) (selG : List String)
    (h : res.countryOfOrigin.getD "JP" ≠ "CN") :
    processAnilistOne res "Donghua" selG = none := by
  simp [processAnilistOne, h]

/-- A result whose country of origin fails the Manhwa KR-check is skipped. -/
theorem processAnilistOne_none_manhwa (res : AniListMedia) (selG : List String)
    (h : res.countryOfOrigin.getD "JP" ≠ "KR") :
    processAnilistOne res "Manhwa" selG = none := by
  simp [processAnilistOne, h]

/-- A result whose country of origin fails the Manhua CN-check is skipped. -/
theorem processAnilistOne_none_manhua (res : AniListMedia) (selG : List String)
    (h : res.countryOfOrigin.getD "JP" ≠ "CN") :
    processAnilistOne res "Manhua" selG = none := by
  simp [processAnilistOne, h]

/-- Every emitted AniList item's `Country` is its source's
`countryOfOrigin` (default `"JP"`). -/
theorem processAnilistOne_country (res : AniListMedia) (forced : String)
    (selG : List String) (item : Item)
    (h : processAnilistOne res forced selG = some item) :
    item.Country = res.countryOfOrigin.getD "JP" := by
  simp only [processAnilistOne] at h
  split at h
  · exact absurd h (by simp)
  · split at h
    · exact absurd h (by simp)
    · split at h
      · exact absurd h (by simp)
      · split at h
        · exact absurd h (by simp)
        · injection h with h
          subst h
          rfl

/-- When every result failing the `cc` country check is skipped, processing
a list equals processing its country-filtered sublist. -/
theorem process_anilist_results_filter (l : List AniListMedia) (selG : List String)
    (forced cc : String)
    (hnone : ∀ r : AniListMedia, r.countryOfOrigin.getD "JP" ≠ cc →
      processAnilistOne r forced selG = none) :
    process_anilist_results l forced selG =
      process_anilist_results (l.filter (fun r => r.countryOfOrigin.getD "JP" == cc))
        forced selG := by
  induction l with
  | nil => rfl
  | cons r rs ih =>
    unfold process_anilist_results at ih ⊢
    by_cases hc : r.countryOfOrigin.getD "JP" = cc
    · rw [List.filter_cons_of_pos (by simp [hc]), List.filterMap_cons, List.filterMap_cons]
      cases processAnilistOne r forced selG <;> simp [ih]
    · rw [List.filter_cons_of_neg (by simp [hc]), List.filterMap_cons, hnone r hc]
      exact ih

/-- C5: `process_anilist_results` filters by country of origin — every
appended result with forced type Donghua has origin CN, Manhwa has KR,
Manhua has CN, and results failing the check contribute nothing (processing
the list equals processing its country-filtered sublist). -/
theorem anilist_country_filtering (res_list : List AniListMedia) (selG : List String) :
    (∀ item ∈ process_anilist_results res_list "Donghua" selG, item.Country = "CN") ∧
    (∀ item ∈ process_anilist_results res_list "Manhwa" selG, item.Country = "KR") ∧
    (∀ item ∈ process_anilist_results res_list "Manhua" selG, item.Country = "CN") ∧
    process_anilist_results res_list "Donghua" selG =
      process_anilist_results
        (res_list.filter (fun r => r.countryOfOrigin.getD "JP" == "CN")) "Donghua" selG ∧
    process_anilist_results res_list "Manhwa" selG =
      process_anilist_results
        (res_list.filter (fun r => r.countryOfOrigin.getD "JP" == "KR")) "Manhwa" selG ∧
    process_anilist_results res_list "Manhua" selG =
      process_anilist_results
        (res_list.filter (fun r => r.countryOfOrigin.getD "JP" == "CN")) "Manhua" selG := by
  refine ⟨?_, ?_, ?_,
    process_anilist_results_filter _ _ _ _ (fun r hr => processAnilistOne_none_donghua r selG hr),
    process_anilist_results_filter _ _ _ _ (fun r hr => processAnilistOne_none_manhwa r selG hr),
    process_anilist_results_filter _ _ _ _ (fun r hr => processAnilistOne_none_manhua r selG hr)⟩
  · intro item hm
    obtain ⟨res, hres, hs⟩ := List.mem_filterMap.mp hm
    by_cases hc : res.countryOfOrigin.getD "JP" = "CN"
    · rw [processAnilistOne_country res _ selG item hs, hc]
    · rw [processAnilistOne_none_donghua res selG hc] at hs
      exact absurd hs (by simp)
  · intro item hm
    obtain ⟨res, hres, hs⟩ := List.mem_filterMap.mp hm
    by_cases hc : res.countryOfOrigin.getD "JP" = "KR"
    · rw [processAnilistOne_country res _ selG item hs, hc]
    · rw [processAnilistOne_none_manhwa res selG hc] at hs
      exact absurd hs (by simp)
  · intro item hm
    obtain ⟨res, hres, hs⟩ := List.mem_filterMap.mp hm
    by_cases hc : res.countryOfOrigin.getD "JP" = "CN"
    · rw [processAnilistOne_country res _ selG item hs, hc]
    · rw [processAnilistOne_none_manhua res selG hc] at hs
      exact absurd hs (by simp)

/-- A concrete CN-origin AniList result. -/
def demoAni : AniListMedia :=
  { title_english := none, title_romaji := "Alpha", countryOfOrigin := some "CN" }

/-- The item `processAnilistOne` produces from `demoAni` as a Donghua. -/
def demoAniItem : Item :=
  { Title := "Alpha", Type' := "Donghua", Country := "CN", Genres := "",
    Image := "", Overview := "No description.", Rating := "?/10", Backdrop := "",
    Total_Eps := .str "?", ID := .null, Links := [] }

/-- Concrete instance of `anilist_country_filtering`. -/
theorem anilist_country_filtering_witness :
    demoAniItem ∈ process_anilist_results [demoAni] "Donghua" [] ∧
    demoAniItem.Country = "CN" :=
  ⟨by decide, (anilist_country_filtering [demoAni] []).1 demoAniItem (by decide)⟩

/-- C3: for every item it persists (duplicate check passed),
`fetch_details_and_add` returns `True` and appends exactly one row, the
flat mapping of the item's fields in the header order Title, Type, Country,
Status, Genres, Image, Overview, Rating, Backdrop, Current_Season,
Current_Ep, Total_Eps, Total_Seasons, ID — with Status `"Plan to Read"`
exactly for the read types (Manga/Manhwa/Manhua/Book/Novel) and
`"Plan to Watch"` otherwise, Current_Season `1` and Current_Ep `0`. -/
theorem fetch_details_and_add_appends_row (tvApi : Value → Option TVDetails)
    (item : Item) (sheet : List (List Value))
    (hdup : Value.str item.Title ∉ col1 sheet) :
    ∃ te : Value, ∃ ts : Int,
      fetch_details_and_add tvApi item sheet =
        (true,
         sheet ++
           [[.str item.Title, .str item.Type', .str item.Country,
             .str (if item.Type' ∈ read_types then "Plan to Read" else "Plan to Watch"),
             .str item.Genres, .str item.Image, .str item.Overview, .str item.Rating,
             .str item.Backdrop, .int 1, .int 0, te, .int ts, item.ID]]) := by
  refine ⟨(addTotals tvApi item).2, (addTotals tvApi item).1, ?_⟩
  simp only [fetch_details_and_add]
  rw [if_neg hdup]

/-- A concrete book item with a title not present in the demo sheet. -/
def demoItem : Item :=
  { Title := "Dune", Type' := "Book", Country := "International",
    Genres := "Fiction", Image := "", Overview := "o", Rating := "4.0/5",
    Backdrop := "", Total_Eps := .str "412", ID := .str "/works/OL893415W" }

/-- A sheet holding only the header row. -/
def demoSheet : List (List Value) := [REQUIRED_HEADERS.map Value.str]

/-- Concrete instance of `fetch_details_and_add_appends_row`. -/
theorem fetch_details_and_add_appends_row_witness :
    Value.str demoItem.Title ∉ col1 demoSheet ∧
    ∃ te : Value, ∃ ts : Int,
      fetch_details_and_add (fun _ => none) demoItem demoSheet =
        (true,
         demoSheet ++
           [[.str demoItem.Title, .str demoItem.Type', .str demoItem.Country,
             .str (if demoItem.Type' ∈ read_types then "Plan to Read" else "Plan to Watch"),
             .str demoItem.Genres, .str demoItem.Image, .str demoItem.Overview,
             .str demoItem.Rating, .str demoItem.Backdrop, .int 1, .int 0, te,
             .int ts, demoItem.ID]]) :=
  ⟨by decide,
   fetch_details_and_add_appends_row (fun _ => none) demoItem demoSheet (by decide)⟩

/-- C8: the duplicate guard — when the item's title already occurs
(character for character) in column 1 of the sheet, `fetch_details_and_add`
returns `False` and the sheet is completely unchanged. -/
theorem fetch_details_and_add_duplicate_guard (tvApi : Value → Option TVDetails)
    (item : Item) (sheet : List (List Value))
    (hdup : Value.str item.Title ∈ col1 sheet) :
    fetch_details_and_add tvApi item sheet = (false, sheet) := by
  simp only [fetch_details_and_add]
  rw [if_pos hdup]

/-- A sheet already containing the demo item's title in column 1. -/
def demoSheetDup : List (List Value) :=
  [REQUIRED_HEADERS.map Value.str,
   [.str "Dune", .str "Book", .str "International", .str "Plan to Read",
    .str "Fiction", .str "", .str "o", .str "4.0/5", .str "", .int 1, .int 0,
    .str "412", .int 1, .str "/works/OL893415W"]]

/-- Concrete instance of `fetch_details_and_add_duplicate_guard`. -/
theorem fetch_details_and_add_duplicate_guard_witness :
    Value.str demoItem.Title ∈ col1 demoSheetDup ∧
    fetch_details_and_add (fun _ => none) demoItem demoSheetDup = (false, demoSheetDup) :=
  ⟨by decide,
   fetch_details_and_add_duplicate_guard (fun _ => none) demoItem demoSheetDup (by decide)⟩

/-- A found cell's row index is within the sheet. -/
theorem findCell_lt {sheet : List (List Value)} {v : Value} {r c : Nat}
    (h : findCell sheet v = some (r, c)) : r < sheet.length := by
  induction sheet generalizing r c with
  | nil => simp [findCell] at h
  | cons row rs ih =>
    unfold findCell at h
    cases hf : findInRow row v with
    | some c0 =>
        rw [hf] at h
        cases h
        simp
    | none =>
        rw [hf] at h
        cases hm : findCell rs v with
        | none => rw [hm] at h; exact absurd h (by simp)
        | some p =>
            rw [hm] at h
            cases h
            have := ih hm
            simp only [List.length_cons]
            omega

theorem get?_eq_some_getD {α : Type} {l : List α} {r : Nat} (hr : r < l.length) (d : α) :
    l.get? r = some (l.getD r d) := by
  rw [List.get?_eq_get hr, List.getD_eq_get?, List.get?_eq_get hr]
  rfl

theorem length_setCell (sheet : List (List Value)) (r c : Nat) (v : Value) :
    (setCell sheet r c v).length = sheet.length := by
  simp [setCell]

theorem getD_setCell_self (sheet : List (List Value)) (r c : Nat) (v : Value)
    (hr : r < sheet.length) :
    (setCell sheet r c v).getD r [] = setInRow (sheet.getD r []) c v := by
  unfold setCell
  rw [List.getD_eq_get?, List.get?_set_eq_of_lt _ hr]
  rfl

theorem length_setInRow_of_lt (row : List Value) (c : Nat) (v : Value)
    (h : c < row.length) : (setInRow row c v).length = row.length := by
  simp [setInRow, h]

theorem getCell_setCell_self (sheet : List (List Value)) (r c : Nat) (v : Value)
    (hr : r < sheet.length) (hc : c < (sheet.getD r []).length) :
    getCell (setCell sheet r c v) r c = some v := by
  unfold getCell setCell
  rw [List.get?_set_eq_of_lt _ hr]
  simp only [Option.some_bind]
  rw [setInRow, if_pos hc]
  exact List.get?_set_eq_of_lt v hc

theorem getCell_setCell_ne_row (sheet : List (List Value)) (r c : Nat) (v : Value)
    (r' c' : Nat) (h : r' ≠ r) :
    getCell (setCell sheet r c v) r' c' = getCell sheet r' c' := by
  unfold getCell setCell
  rw [List.get?_set_ne _ _ (Ne.symm h)]

theorem getCell_setCell_ne_col (sheet : List (List Value)) (r c : Nat) (v : Value)
    (c' : Nat) (hc : c < (sheet.getD r []).length) (h : c' ≠ c) :
    getCell (setCell sheet r c v) r c' = getCell sheet r c' := by
  by_cases hr : r < sheet.length
  · unfold getCell setCell
    rw [List.get?_set_eq_of_lt _ hr, get?_eq_some_getD hr []]
    simp only [Option.some_bind]
    rw [setInRow, if_pos hc]
    exact List.get?_set_ne _ _ (Ne.symm h)
  · unfold setCell
    rw [List.set_eq_of_length_le (by omega)]

/-- C9 counterexample: the claim's "the header is unchanged" fails as
stated.  `sheet.find(title)` scans every cell including the header row, so
updating the status of an item titled `"Title"` matches the header cell
(1, 1) and overwrites the header's Status/Current_Season/Current_Ep
columns. -/
def demoSheet9 : List (List Value) :=
  [REQUIRED_HEADERS.map Value.str,
   [.str "Alpha", .str "Movies", .str "en", .str "Plan to Watch", .str "", .str "",
    .str "", .str "", .str "", .int 1, .int 0, .str "?", .int 1, .int 603]]

/-- C9 is falsified at a concrete input: on a sheet whose only cell equal to
`"Title"` is the header's first cell, `update_status_in_sheet "Title" ...`
finds that header cell and rewrites header column 4 (0-indexed 3) from
`"Status"` to the new status — a cell matches the title, yet the header
changes. -/
theorem update_status_header_clobbered :
    findCell demoSheet9 (.str "Title") = some (0, 0) ∧
    getCell demoSheet9 0 3 = some (.str "Status") ∧
    getCell (update_status_in_sheet "Title" "Watching" 2 5 demoSheet9) 0 3 =
      some (.str "Watching") := by decide

/-- C9 (amended): when `update_status_in_sheet` finds a matching cell, it
writes only that cell's row at columns 4, 10 and 11 (0-indexed 3, 9, 10)
with the new status, season and episode; every other cell of that row and
every cell of every other row — in particular the header, whenever the
matching cell is not in the header row — is unchanged; and when no cell
matches, the sheet is entirely unchanged. -/
theorem update_status_in_sheet_frame (title new_status : String)
    (new_season new_ep : Int) (sheet : List (List Value)) :
    (findCell sheet (.str title) = none →
      update_status_in_sheet title new_status new_season new_ep sheet = sheet) ∧
    (∀ r c, findCell sheet (.str title) = some (r, c) →
      11 ≤ (sheet.getD r []).length →
      getCell (update_status_in_sheet title new_status new_season new_ep sheet) r 3 =
        some (.str new_status) ∧
      getCell (update_status_in_sheet title new_status new_season new_ep sheet) r 9 =
        some (.int new_season) ∧
      getCell (update_status_in_sheet title new_status new_season new_ep sheet) r 10 =
        some (.int new_ep) ∧
      (∀ r' c', r' ≠ r →
        getCell (update_status_in_sheet title new_status new_season new_ep sheet) r' c' =
          getCell sheet r' c') ∧
      (∀ c', c' ≠ 3 → c' ≠ 9 → c' ≠ 10 →
        getCell (update_status_in_sheet title new_status new_season new_ep sheet) r c' =
          getCell sheet r c')) := by
  constructor
  · intro h
    unfold update_status_in_sheet
    rw [h]
  · intro r c hf hlen
    have hr : r < sheet.length := findCell_lt hf
    have hupd : update_status_in_sheet title new_status new_season new_ep sheet =
        setCell (setCell (setCell sheet r 3 (.str new_status)) r 9 (.int new_season))
          r 10 (.int new_ep) := by
      unfold update_status_in_sheet
      rw [hf]
    have hr1 : r < (setCell sheet r 3 (.str new_status)).length := by
      rw [length_setCell]; exact hr
    have hrow1 : ((setCell sheet r 3 (.str new_status)).getD r []).length =
        (sheet.getD r []).length := by
      rw [getD_setCell_self _ _ _ _ hr, length_setInRow_of_lt _ _ _ (by omega)]
    have hr2 : r < (setCell (setCell sheet r 3 (.str new_status)) r 9 (.int new_season)).length := by
      rw [length_setCell]; exact hr1
    have hrow2 : ((setCell (setCell sheet r 3 (.str new_status)) r 9
        (.int new_season)).getD r []).length = (sheet.getD r []).length := by
      rw [getD_setCell_self _ _ _ _ hr1, length_setInRow_of_lt _ _ _ (by omega), hrow1]
    refine ⟨?_, ?_, ?_, ?_, ?_⟩
    · rw [hupd, getCell_setCell_ne_col _ _ _ _ _ (by omega) (by omega),
        getCell_setCell_ne_col _ _ _ _ _ (by omega) (by omega)]
      exact getCell_setCell_self _ _ _ _ hr (by omega)
    · rw [hupd, getCell_setCell_ne_col _ _ _ _ _ (by omega) (by omega)]
      exact getCell_setCell_self _ _ _ _ hr1 (by omega)
    · rw [hupd]
      exact getCell_setCell_self _ _ _ _ hr2 (by omega)
    · intro r' c' hne
      rw [hupd, getCell_setCell_ne_row _ _ _ _ _ _ hne,
        getCell_setCell_ne_row _ _ _ _ _ _ hne, getCell_setCell_ne_row _ _ _ _ _ _ hne]
    · intro c' h3 h9 h10
      rw [hupd, getCell_setCell_ne_col _ _ _ _ _ (by omega) h10,
        getCell_setCell_ne_col _ _ _ _ _ (by omega) h9,
        getCell_setCell_ne_col _ _ _ _ _ (by omega) h3]

/-- Concrete instance of `update_status_in_sheet_frame`: updating `"Alpha"`
writes its row's status column and leaves the header row untouched. -/
theorem update_status_in_sheet_frame_witness :
    findCell demoSheet9 (.str "Alpha") = some (1, 0) ∧
    getCell (update_status_in_sheet "Alpha" "Watching" 2 5 demoSheet9) 1 3 =
      some (.str "Watching") ∧
    getCell (update_status_in_sheet "Alpha" "Watching" 2 5 demoSheet9) 0 3 =
      getCell demoSheet9 0 3 :=
  ⟨by decide,
   ((update_status_in_sheet_frame "Alpha" "Watching" 2 5 demoSheet9).2 1 0
      (by decide) (by decide)).1,
   ((update_status_in_sheet_frame "Alpha" "Watching" 2 5 demoSheet9).2 1 0
      (by decide) (by decide)).2.2.2.1 0 3 (by decide)⟩

/-- After one call populates the cache, a second call with equal arguments
within the TTL returns the cached value, leaves the cache unchanged, and
does not invoke the underlying function. -/
theorem ttlCall_hit {α β : Type} [DecidableEq α] (ttl : Nat) (f : Nat → α → β)
    (t₀ t₁ : Nat) (x : α) (h : t₁ - t₀ < ttl) :
    ttlCall ttl f t₁ x (ttlCall ttl f t₀ x []).2.1 =
      ((ttlCall ttl f t₀ x []).1, (ttlCall ttl f t₀ x []).2.1, false) := by
  have h0 : ttlCall ttl f t₀ x [] = (f t₀ x, [(x, f t₀ x, t₀)], true) := rfl
  rw [h0]
  unfold ttlCall
  simp [List.find?, h]

/-- C7: the four `@st.cache_data(ttl=3600)` fetchers are memoized — within
the one-hour TTL, a repeated call with equal arguments returns the same
value as the first call without contacting the external API (the boolean
contact flag is `false`), so repeated renders of the same query are
deterministic. -/
theorem cached_fetchers_deterministic
    (seasonApi : Nat → Int × Int → Option SeasonResp)
    (alSingleApi : Nat → ALSingleReq → Option ALSingleMedia)
    (alListApi : Nat → AniListReq → List AniListMedia)
    (olApi : Nat → OLParams → List OLDoc)
    (t₀ t₁ : Nat) (h : t₁ - t₀ < 3600)
    (sArgs : Value × Int) (aArgs : String × String × Option String)
    (lArgs : ALListArgs) (oArgs : String × Option String) :
    get_season_details_cached seasonApi t₁ sArgs
        (get_season_details_cached seasonApi t₀ sArgs []).2.1 =
      ((get_season_details_cached seasonApi t₀ sArgs []).1,
       (get_season_details_cached seasonApi t₀ sArgs []).2.1, false) ∧
    fetch_anilist_data_single_cached alSingleApi t₁ aArgs
        (fetch_anilist_data_single_cached alSingleApi t₀ aArgs []).2.1 =
      ((fetch_anilist_data_single_cached alSingleApi t₀ aArgs []).1,
       (fetch_anilist_data_single_cached alSingleApi t₀ aArgs []).2.1, false) ∧
    fetch_anilist_list_cached alListApi t₁ lArgs
        (fetch_anilist_list_cached alListApi t₀ lArgs []).2.1 =
      ((fetch_anilist_list_cached alListApi t₀ lArgs []).1,
       (fetch_anilist_list_cached alListApi t₀ lArgs []).2.1, false) ∧
    fetch_open_library_cached olApi t₁ oArgs
        (fetch_open_library_cached olApi t₀ oArgs []).2.1 =
      ((fetch_open_library_cached olApi t₀ oArgs []).1,
       (fetch_open_library_cached olApi t₀ oArgs []).2.1, false) :=
  ⟨ttlCall_hit _ _ _ _ _ h, ttlCall_hit _ _ _ _ _ h,
   ttlCall_hit _ _ _ _ _ h, ttlCall_hit _ _ _ _ _ h⟩

/-- Concrete instance of `cached_fetchers_deterministic` for the
OpenLibrary fetcher, ten seconds after the first call. -/
theorem cached_fetchers_deterministic_witness :
    (10 : Nat) - 0 < 3600 ∧
    fetch_open_library_cached (fun _ _ => []) 10 ("dune", none)
        (fetch_open_library_cached (fun _ _ => []) 0 ("dune", none) []).2.1 =
      ((fetch_open_library_cached (fun _ _ => []) 0 ("dune", none) []).1,
       (fetch_open_library_cached (fun _ _ => []) 0 ("dune", none) []).2.1, false) :=
  ⟨by decide,
   (cached_fetchers_deterministic (fun _ _ => none) (fun _ _ => none)
      (fun _ _ => []) (fun _ _ => []) 0 10 (by decide) (Value.int 603, 1)
      ("a", "ANIME", none) ⟨"q", "ANIME", [], "Popularity", 1, none, none⟩
      ("dune", none)).2.2.2⟩

/-- The tagged call trace contains a TMDB call iff the TMDB section made
any. -/
theorem exists_tmdb_call_iff (tc : List TMDBCall) (ac : List AniListReq)
    (oc : List OLParams) :
    (∃ c ∈ tc.map ApiCall.tmdb ++ ac.map ApiCall.anilist ++ oc.map ApiCall.openlib,
      c.isTmdb = true) ↔ tc ≠ [] := by
  constructor
  · rintro ⟨c, hc, hb⟩
    simp only [List.mem_append, List.mem_map] at hc
    rcases hc with (⟨x, hx, rfl⟩ | ⟨x, hx, rfl⟩) | ⟨x, hx, rfl⟩
    · exact List.ne_nil_of_mem hx
    · simp [ApiCall.isTmdb] at hb
    · simp [ApiCall.isTmdb] at hb
  · intro h
    obtain ⟨x, xs, rfl⟩ := List.exists_cons_of_ne_nil h
    exact ⟨ApiCall.tmdb x, by simp, rfl⟩

/-- The tagged call trace contains an AniList call iff the AniList section
made any. -/
theorem exists_anilist_call_iff (tc : List TMDBCall) (ac : List AniListReq)
    (oc : List OLParams) :
    (∃ c ∈ tc.map ApiCall.tmdb ++ ac.map ApiCall.anilist ++ oc.map ApiCall.openlib,
      c.isAnilist = true) ↔ ac ≠ [] := by
  constructor
  · rintro ⟨c, hc, hb⟩
    simp only [List.mem_append, List.mem_map] at hc
    rcases hc with (⟨x, hx, rfl⟩ | ⟨x, hx, rfl⟩) | ⟨x, hx, rfl⟩
    · simp [ApiCall.isAnilist] at hb
    · exact List.ne_nil_of_mem hx
    · simp [ApiCall.isAnilist] at hb
  · intro h
    obtain ⟨x, xs, rfl⟩ := List.exists_cons_of_ne_nil h
    exact ⟨ApiCall.anilist x, by simp, rfl⟩

/-- The tagged call trace contains an OpenLibrary call iff the OpenLibrary
section made any. -/
theorem exists_openlib_call_iff (tc : List TMDBCall) (ac : List AniListReq)
    (oc : List OLParams) :
    (∃ c ∈ tc.map ApiCall.tmdb ++ ac.map ApiCall.anilist ++ oc.map ApiCall.openlib,
      c.isOpenlib = true) ↔ oc ≠ [] := by
  constructor
  · rintro ⟨c, hc, hb⟩
    simp only [List.mem_append, List.mem_map] at hc
    rcases hc with (⟨x, hx, rfl⟩ | ⟨x, hx, rfl⟩) | ⟨x, hx, rfl⟩
    · simp [ApiCall.isOpenlib] at hb
    · simp [ApiCall.isOpenlib] at hb
    · exact List.ne_nil_of_mem hx
  · intro h
    obtain ⟨x, xs, rfl⟩ := List.exists_cons_of_ne_nil h
    exact ⟨ApiCall.openlib x, by simp, rfl⟩

/-- The TMDB section queries TMDB iff a live-action type is selected. -/
theorem tmdbSection_calls_ne_nil (tmdbO : TMDBCall → List TMDBResult)
    (query : String) (selT selG : List String) (so : String) (page : Nat) :
    (tmdbSection tmdbO query selT selG so page).2 ≠ [] ↔
      ("Movies" ∈ selT ∨ "Web Series" ∈ selT ∨ "K-Drama" ∈ selT ∨
       "C-Drama" ∈ selT ∨ "Thai Drama" ∈ selT) := by
  by_cases h : ∃ t ∈ live_action, t ∈ selT
  · have hd : ("Movies" ∈ selT ∨ "Web Series" ∈ selT ∨ "K-Drama" ∈ selT ∨
        "C-Drama" ∈ selT ∨ "Thai Drama" ∈ selT) := by
      simpa [live_action] using h
    simp only [tmdbSection, if_pos h, hd, iff_true]
    rcases hd with h1 | h1 | h1 | h1 | h1 <;>
      simp [h1, List.map_append, List.append_eq_nil]
  · have hd : ¬("Movies" ∈ selT ∨ "Web Series" ∈ selT ∨ "K-Drama" ∈ selT ∨
        "C-Drama" ∈ selT ∨ "Thai Drama" ∈ selT) := by
      simpa [live_action] using h
    simp [tmdbSection, if_neg h, hd]

/-- The AniList section queries AniList iff an AniList type is selected. -/
theorem aniSection_calls_ne_nil (aniO : AniListReq → List AniListMedia)
    (query : String) (selT selG : List String) (so : String) (page : Nat) :
    (aniSection aniO query selT selG so page).2 ≠ [] ↔
      ("Anime" ∈ selT ∨ "Donghua" ∈ selT ∨ "Novel" ∈ selT ∨
       "Manga" ∈ selT ∨ "Manhwa" ∈ selT ∨ "Manhua" ∈ selT) := by
  by_cases h : ∃ t ∈ anilist_types, t ∈ selT
  · have hd : ("Anime" ∈ selT ∨ "Donghua" ∈ selT ∨ "Novel" ∈ selT ∨
        "Manga" ∈ selT ∨ "Manhwa" ∈ selT ∨ "Manhua" ∈ selT) := by
      simpa [anilist_types] using h
    simp only [aniSection, if_pos h, hd, iff_true]
    rcases hd with h1 | h1 | h1 | h1 | h1 | h1 <;>
      simp [h1, List.map_append, List.append_eq_nil]
  · have hd : ¬("Anime" ∈ selT ∨ "Donghua" ∈ selT ∨ "Novel" ∈ selT ∨
        "Manga" ∈ selT ∨ "Manhwa" ∈ selT ∨ "Manhua" ∈ selT) := by
      simpa [anilist_types] using h
    simp [aniSection, if_neg h, hd]

/-- The OpenLibrary section queries OpenLibrary iff Book or Novel is
selected. -/
theorem olSection_calls_ne_nil (olO : OLParams → List OLDoc)
    (query : String) (selT selG : List String) :
    (olSection olO query selT selG).2 ≠ [] ↔ ("Book" ∈ selT ∨ "Novel" ∈ selT) := by
  by_cases h : "Book" ∈ selT ∨ "Novel" ∈ selT
  · simp only [olSection, if_pos h, h, iff_true]
    rcases h with h1 | h1 <;> simp [h1, List.map_append, List.append_eq_nil]
  · simp [olSection, if_neg h, h]

/-- C4: `search_unified` queries exactly the catalogs matching the
selection — TMDB iff a live-action type (Movies / Web Series / K-Drama /
C-Drama / Thai Drama) is selected, AniList iff an AniList type (Anime /
Donghua / Novel / Manga / Manhwa / Manhua) is selected, OpenLibrary iff
Book or Novel is selected — and returns the concatenation of the
per-catalog results in the order TMDB, AniList, OpenLibrary. -/
theorem search_unified_catalog_dispatch (tmdbO : TMDBCall → List TMDBResult)
    (aniO : AniListReq → List AniListMedia) (olO : OLParams → List OLDoc)
    (query : String) (selT selG : List String) (so : String) (page : Nat) :
    ((∃ c ∈ (search_unified tmdbO aniO olO query selT selG so page).2, c.isTmdb = true) ↔
      ("Movies" ∈ selT ∨ "Web Series" ∈ selT ∨ "K-Drama" ∈ selT ∨
       "C-Drama" ∈ selT ∨ "Thai Drama" ∈ selT)) ∧
    ((∃ c ∈ (search_unified tmdbO aniO olO query selT selG so page).2, c.isAnilist = true) ↔
      ("Anime" ∈ selT ∨ "Donghua" ∈ selT ∨ "Novel" ∈ selT ∨
       "Manga" ∈ selT ∨ "Manhwa" ∈ selT ∨ "Manhua" ∈ selT)) ∧
    ((∃ c ∈ (search_unified tmdbO aniO olO query selT selG so page).2, c.isOpenlib = true) ↔
      ("Book" ∈ selT ∨ "Novel" ∈ selT)) ∧
    (search_unified tmdbO aniO olO query selT selG so page).1 =
      (tmdbSection tmdbO query selT selG so page).1 ++
      (aniSection aniO query selT selG so page).1 ++
      (olSection olO query selT selG).1 :=
  ⟨(exists_tmdb_call_iff _ _ _).trans (tmdbSection_calls_ne_nil tmdbO query selT selG so page),
   (exists_anilist_call_iff _ _ _).trans (aniSection_calls_ne_nil aniO query selT selG so page),
   (exists_openlib_call_iff _ _ _).trans (olSection_calls_ne_nil olO query selT selG),
   rfl⟩

/-- Concrete instance of `search_unified_catalog_dispatch`: with Movies and
Book selected, a TMDB call is made. -/
theorem search_unified_catalog_dispatch_witness :
    ∃ c ∈ (search_unified (fun _ => []) (fun _ => []) (fun _ => [])
      "q" ["Movies", "Book"] [] "Popularity" 1).2, c.isTmdb = true :=
  (search_unified_catalog_dispatch (fun _ => []) (fun _ => []) (fun _ => [])
    "q" ["Movies", "Book"] [] "Popularity" 1).1.mpr (Or.inl (by decide))

/-- C6: pagination is monotone and page-incrementing — the Load More
handler increments the page by exactly one, fetches that next page with the
same query, types, genres and sort option, appends the new results at the
end leaving every previously accumulated result unchanged in content and
position; every AniList page request asks for 15 items per page (and
carries the requested page), and every OpenLibrary request uses limit 15. -/
theorem pagination_load_more (tmdbO : TMDBCall → List TMDBResult)
    (aniO : AniListReq → List AniListMedia) (olO : OLParams → List OLDoc)
    (query : String) (selT selG : List String) (so : String) (st : SearchState) :
    (load_more tmdbO aniO olO query selT selG so st).search_page = st.search_page + 1 ∧
    (load_more tmdbO aniO olO query selT selG so st).search_results =
      st.search_results ++
        (search_unified tmdbO aniO olO query selT selG so (st.search_page + 1)).1 ∧
    (∀ i, i < st.search_results.length →
      (load_more tmdbO aniO olO query selT selG so st).search_results.get? i =
        st.search_results.get? i) ∧
    (∀ q t g s p c f, (mkAniListReq q t g s p c f).perPage = 15 ∧
      (mkAniListReq q t g s p c f).page = p) ∧
    (∀ q g, (mkOLParams q g).limit = 15) := by
  refine ⟨rfl, rfl, ?_, fun q t g s p c f => ⟨rfl, rfl⟩, ?_⟩
  · intro i hi
    exact List.get?_append hi
  · intro q g
    rcases g with _ | g' <;> simp only [mkOLParams] <;> split <;> try rfl
    split <;> rfl

/-- Concrete instance of `pagination_load_more`: the previously accumulated
first result is still first after Load More. -/
theorem pagination_load_more_witness :
    (0 : Nat) < 1 ∧
    (load_more (fun _ => []) (fun _ => []) (fun _ => []) "" [] [] "Popularity"
      ⟨1, [demoAniItem]⟩).search_results.get? 0 = some demoAniItem :=
  ⟨by decide, by
    have := (pagination_load_more (fun _ => []) (fun _ => []) (fun _ => [])
      "" [] [] "Popularity" ⟨1, [demoAniItem]⟩).2.2.1 0 (by decide)
    simpa using this⟩

/-- The multiset content of a `TitleMap`, as a list of `(title, index)`
pairs in entry order. -/
def pairsOf : TitleMap → List (String × Nat)
  | [] => []
  | (s, l) :: rest => l.map (fun i => (s, i)) ++ pairsOf rest

theorem insertTM_keys (tm : TitleMap) (t : String) (i : Nat) :
    (insertTM tm t i).map Prod.fst =
      if t ∈ tm.map Prod.fst then tm.map Prod.fst else tm.map Prod.fst ++ [t] := by
  induction tm with
  | nil => simp [insertTM]
  | cons p rest ih =>
    obtain ⟨s, l⟩ := p
    by_cases hs : s = t
    · subst hs
      simp [insertTM]
    · simp only [insertTM, if_neg hs, List.map_cons, ih]
      have : (t ∈ s :: rest.map Prod.fst) ↔ (t ∈ rest.map Prod.fst) := by
        simp [Ne.symm hs]
      by_cases hm : t ∈ rest.map Prod.fst
      · simp [hm, this]
      · simp [hm, this]

theorem insertTM_pairs (tm : TitleMap) (t : String) (i : Nat) :
    (pairsOf (insertTM tm t i)).Perm (pairsOf tm ++ [(t, i)]) := by
  induction tm with
  | nil => simp [insertTM, pairsOf]
  | cons p rest ih =>
    obtain ⟨s, l⟩ := p
    by_cases hs : s = t
    · subst hs
      simp only [insertTM, if_pos rfl, pairsOf, List.map_append]
      rw [List.append_assoc, List.append_assoc]
      exact (List.perm_append_left_iff _).mpr
        (by simpa using (List.perm_append_comm : ([(s, i)] ++ pairsOf rest).Perm (pairsOf rest ++ [(s, i)])))
    · simp only [insertTM, if_neg hs, pairsOf]
      rw [List.append_assoc]
      exact (List.perm_append_left_iff _).mpr ih

theorem foldl_insert_pairs (ps : List (String × Nat)) (tm : TitleMap) :
    (pairsOf (ps.foldl (fun tm p => insertTM tm p.1 p.2) tm)).Perm (pairsOf tm ++ ps) := by
  induction ps generalizing tm with
  | nil => simp
  | cons p ps' ih =>
    simp only [List.foldl_cons]
    refine (ih (insertTM tm p.1 p.2)).trans ?_
    have := (List.perm_append_right_iff ps').mpr (insertTM_pairs tm p.1 p.2)
    refine this.trans ?_
    rw [List.append_assoc]
    simp

theorem buildTitleMap_pairs (ps : List (String × Nat)) :
    (pairsOf (buildTitleMap ps)).Perm ps := by
  simpa [pairsOf] using foldl_insert_pairs ps []

theorem foldl_insert_keys_nodup (ps : List (String × Nat)) (tm : TitleMap)
    (h : (tm.map Prod.fst).Nodup) :
    ((ps.foldl (fun tm p => insertTM tm p.1 p.2) tm).map Prod.fst).Nodup := by
  induction ps generalizing tm with
  | nil => exact h
  | cons p ps' ih =>
    simp only [List.foldl_cons]
    refine ih _ ?_
    rw [insertTM_keys]
    by_cases hm : p.1 ∈ tm.map Prod.fst
    · simpa [hm] using h
    · simp [hm, List.nodup_append, h]

theorem buildTitleMap_keys_nodup (ps : List (String × Nat)) :
    ((buildTitleMap ps).map Prod.fst).Nodup :=
  foldl_insert_keys_nodup ps [] (by simp)

theorem popTM_keys (tm : TitleMap) (t : String) :
    ((popTM tm t).2.map Prod.fst) = tm.map Prod.fst := by
  induction tm with
  | nil => rfl
  | cons p rest ih =>
    obtain ⟨s, l⟩ := p
    by_cases hs : s = t
    · subst hs
      cases l <;> simp [popTM]
    · simp [popTM, hs, ih]

theorem fst_of_mem_pairsOf {tm : TitleMap} {p : String × Nat} (h : p ∈ pairsOf tm) :
    p.1 ∈ tm.map Prod.fst := by
  induction tm with
  | nil => simp [pairsOf] at h
  | cons q rest ih =>
    obtain ⟨s, l⟩ := q
    simp only [pairsOf, List.mem_append, List.mem_map] at h
    rcases h with ⟨i, _, rfl⟩ | h
    · simp
    · simp [ih h]

theorem popTM_success {tm : TitleMap} {t : String}
    (hk : (tm.map Prod.fst).Nodup) (hm : t ∈ (pairsOf tm).map Prod.fst) :
    ∃ i, (popTM tm t).1 = some i ∧ (t, i) ∈ pairsOf tm ∧
      (pairsOf tm).Perm ((t, i) :: pairsOf (popTM tm t).2) := by
  induction tm with
  | nil => simp [pairsOf] at hm
  | cons q rest ih =>
    obtain ⟨s, l⟩ := q
    by_cases hs : s = t
    · subst hs
      cases l with
      | nil =>
          exfalso
          simp only [pairsOf, List.map_nil, List.nil_append] at hm
          obtain ⟨p, hp, hp1⟩ := List.mem_map.mp hm
          have : p.1 ∈ rest.map Prod.fst := fst_of_mem_pairsOf hp
          rw [hp1] at this
          exact (List.nodup_cons.mp (by simpa using hk)).1 this
      | cons i is =>
          refine ⟨i, by simp [popTM], by simp [pairsOf], ?_⟩
          simp [popTM, pairsOf]
    · have hm' : t ∈ (pairsOf rest).map Prod.fst := by
        simp only [pairsOf, List.map_append, List.mem_append, List.map_map] at hm
        rcases hm with hL | hR
        · exfalso
          obtain ⟨i, _, hi⟩ := List.mem_map.mp hL
          exact hs (by simpa using hi)
        · exact hR
      obtain ⟨i, h1, h2, h3⟩ := ih (by simpa using (List.nodup_cons.mp (by simpa using hk)).2) hm'
      refine ⟨i, by simp [popTM, hs, h1], ?_, ?_⟩
      · simp [pairsOf, h2]
      · have hpop : (popTM ((s, l) :: rest) t).2 = (s, l) :: (popTM rest t).2 := by
          simp [popTM, hs]
        rw [hpop]
        simp only [pairsOf]
        refine ((List.perm_append_left_iff _).mpr h3).trans ?_
        exact List.perm_middle

theorem runPops_spec : ∀ (ts : List String) (tm : TitleMap),
    (tm.map Prod.fst).Nodup → ts.Perm ((pairsOf tm).map Prod.fst) →
    (runPops tm ts).Perm ((pairsOf tm).map Prod.snd) ∧
      List.Forall₂ (fun t i => (t, i) ∈ pairsOf tm) ts (runPops tm ts) := by
  intro ts
  induction ts with
  | nil =>
      intro tm _ hperm
      have : (pairsOf tm).map Prod.fst = [] := (List.perm_nil.mp hperm.symm)
      have hnil : pairsOf tm = [] := by
        cases hp : pairsOf tm with
        | nil => rfl
        | cons a l => rw [hp] at this; simp at this
      simp [runPops, hnil]
  | cons t ts' ih =>
      intro tm hk hperm
      have hmem : t ∈ (pairsOf tm).map Prod.fst :=
        hperm.subset (List.mem_cons_self t ts')
      obtain ⟨i, h1, h2, h3⟩ := popTM_success hk hmem
      have hk' : ((popTM tm t).2.map Prod.fst).Nodup := by
        rw [popTM_keys]; exact hk
      have hperm' : ts'.Perm ((pairsOf (popTM tm t).2).map Prod.fst) := by
        have hmap : ((pairsOf tm).map Prod.fst).Perm
            (t :: (pairsOf (popTM tm t).2).map Prod.fst) := by
          simpa using h3.map Prod.fst
        exact (hperm.trans hmap).cons_inv
      obtain ⟨p1, p2⟩ := ih (popTM tm t).2 hk' hperm'
      have hrun : runPops tm (t :: ts') = i :: runPops (popTM tm t).2 ts' := by
        simp [runPops, h1]
      constructor
      · rw [hrun]
        have hsnd : ((pairsOf tm).map Prod.snd).Perm
            (i :: (pairsOf (popTM tm t).2).map Prod.snd) := by
          simpa using h3.map Prod.snd
        exact (p1.cons i).trans hsnd.symm
      · rw [hrun]
        refine List.Forall₂.cons h2 (p2.imp ?_)
        intro a b hb
        exact h3.symm.subset (List.mem_cons_of_mem _ hb)

theorem fillSlots_length (base : List Nat) (ps : List (Nat × Nat)) :
    (fillSlots base ps).length = base.length := by
  induction ps generalizing base with
  | nil => rfl
  | cons p rest ih =>
      show (fillSlots (base.set p.1 p.2) rest).length = base.length
      rw [ih]
      simp

theorem fillSlots_get?_not_mem {base : List Nat} {ps : List (Nat × Nat)} {j : Nat}
    (h : j ∉ ps.map Prod.fst) : (fillSlots base ps).get? j = base.get? j := by
  induction ps generalizing base with
  | nil => rfl
  | cons p rest ih =>
      simp only [List.map_cons, List.mem_cons, not_or] at h
      show (fillSlots (base.set p.1 p.2) rest).get? j = base.get? j
      rw [ih h.2, List.get?_set_ne _ _ (Ne.symm h.1)]

theorem fillSlots_get?_mem {base : List Nat} {ps : List (Nat × Nat)}
    (hnd : (ps.map Prod.fst).Nodup) :
    ∀ p ∈ ps, p.1 < base.length → (fillSlots base ps).get? p.1 = some p.2 := by
  induction ps generalizing base with
  | nil => intro p hp; simp at hp
  | cons q rest ih =>
      intro p hp hlt
      simp only [List.map_cons, List.nodup_cons] at hnd
      rcases List.mem_cons.mp hp with rfl | hp'
      · show (fillSlots (base.set p.1 p.2) rest).get? p.1 = some p.2
        rw [fillSlots_get?_not_mem hnd.1]
        exact List.get?_set_eq_of_lt _ hlt
      · show (fillSlots (base.set q.1 q.2) rest).get? p.1 = some p.2
        exact ih hnd.2 p hp' (by simpa using hlt)

/-- Overwriting position `s` with `w` while remembering the old value is a
permutation-preserving exchange. -/
theorem set_append_getD_perm (base : List Nat) (s w : Nat) (h : s < base.length) :
    (base.set s w ++ [base.getD s 0]).Perm (base ++ [w]) := by
  have hb : base.getD s 0 = base[s] := by
    rw [List.getD_eq_get?, List.get?_eq_get h]
    rfl
  have hdecomp : base.take s ++ base[s] :: base.drop (s + 1) = base := by
    rw [List.getElem_cons_drop, List.take_append_drop]
  rw [List.set_eq_take_cons_drop w h, hb]
  conv_rhs => rw [← hdecomp]
  rw [List.append_assoc, List.append_assoc, List.cons_append, List.cons_append]
  refine (List.perm_append_left_iff _).mpr ?_
  have p1 : (w :: (base.drop (s + 1) ++ [base[s]])).Perm
      (w :: base[s] :: base.drop (s + 1)) :=
    List.Perm.cons w
      (List.perm_append_comm : (base.drop (s + 1) ++ [base[s]]).Perm ([base[s]] ++ base.drop (s + 1)))
  have p2 : (w :: base[s] :: base.drop (s + 1)).Perm
      (base[s] :: w :: base.drop (s + 1)) := List.Perm.swap _ _ _
  have p3 : (base[s] :: w :: base.drop (s + 1)).Perm
      (base[s] :: (base.drop (s + 1) ++ [w])) :=
    List.Perm.cons _ (List.perm_append_comm : ([w] ++ base.drop (s + 1)).Perm (base.drop (s + 1) ++ [w]))
  exact (p1.trans p2).trans p3

/-- Filling pairwise-distinct in-bounds slots exchanges the old slot values
for the new ones, up to permutation. -/
theorem fillSlots_perm : ∀ (ps : List (Nat × Nat)) (base : List Nat),
    (ps.map Prod.fst).Nodup → (∀ p ∈ ps, p.1 < base.length) →
    (fillSlots base ps ++ ps.map (fun p => base.getD p.1 0)).Perm
      (base ++ ps.map Prod.snd) := by
  intro ps
  induction ps with
  | nil => intro base _ _; simp [fillSlots]
  | cons q rest ih =>
      intro base hnd hb
      simp only [List.map_cons, List.nodup_cons] at hnd
      have hq : q.1 < base.length := hb q (List.mem_cons_self _ _)
      have hrest : ∀ p ∈ rest, p.1 < (base.set q.1 q.2).length := by
        intro p hp
        rw [List.length_set]
        exact hb p (List.mem_cons_of_mem _ hp)
      have hmapeq : rest.map (fun p => base.getD p.1 0) =
          rest.map (fun p => (base.set q.1 q.2).getD p.1 0) := by
        apply List.map_congr_left
        intro p hp
        have hne : q.1 ≠ p.1 := by
          intro he
          exact hnd.1 (he ▸ List.mem_map.mpr ⟨p, hp, rfl⟩)
        rw [List.getD_eq_get?, List.getD_eq_get?, List.get?_set_ne _ _ hne]
      have ihh := ih (base.set q.1 q.2) hnd.2 hrest
      show (fillSlots (base.set q.1 q.2) rest ++
        (base.getD q.1 0) :: rest.map (fun p => base.getD p.1 0)).Perm
        (base ++ q.2 :: rest.map Prod.snd)
      rw [hmapeq]
      refine List.Perm.trans List.perm_middle ?_
      refine List.Perm.trans (List.Perm.cons (base.getD q.1 0) ihh) ?_
      have step1 : ((base.getD q.1 0) :: (base.set q.1 q.2 ++ rest.map Prod.snd)).Perm
          ((base.set q.1 q.2 ++ [base.getD q.1 0]) ++ rest.map Prod.snd) := by
        rw [List.append_assoc, List.singleton_append]
        exact List.perm_middle.symm
      refine step1.trans ?_
      refine List.Perm.trans
        ((List.perm_append_right_iff _).mpr (set_append_getD_perm base q.1 q.2 hq)) ?_
      rw [List.append_assoc, List.singleton_append]

/-- Reading every position of a list through `getD` over `range` rebuilds
the list. -/
theorem range_map_getD {α : Type} (l : List α) (d : α) :
    (List.range l.length).map (fun i => l.getD i d) = l := by
  induction l with
  | nil => rfl
  | cons a l ih =>
      rw [List.length_cons, List.range_succ_eq_map]
      simp only [List.map_cons, List.map_map, List.getD_cons_zero]
      have hc : ((fun i => (a :: l).getD i d) ∘ Nat.succ) = fun i => l.getD i d := by
        funext i
        simp [List.getD_cons_succ]
      rw [hc, ih]

theorem forall₂_map_eq {h : Nat → String} :
    ∀ {ts : List String} {l : List Nat},
    List.Forall₂ (fun t i => h i = t) ts l → l.map h = ts := by
  intro ts l hf
  induction hf with
  | nil => rfl
  | cons hr _ ih => simp [ih, hr]

/-- C10: saving a drag-and-drop reorder of one category produces a
dataframe that is a permutation of the original rows in which only the
selected category's rows move — every row at a position outside the
category's slots is unchanged, the category's slots are refilled with the
same multiset of rows, in the user-chosen title order (duplicate titles
first-come-first-served) — and `bulk_update_order` rewrites the sheet as
the original header followed by exactly these rows. -/
theorem reorder_category_spec (df : List Row) (category : String) (ts : List String)
    (h : ts.Perm (subsetTitles df category)) :
    (reorder_category df category ts).Perm df ∧
    (∀ i, i < df.length → rowType (df.getD i []) ≠ category →
      (reorder_category df category ts).get? i = df.get? i) ∧
    ((subsetIdx df category).map
        (fun s => (reorder_category df category ts).getD s [])).Perm
      ((subsetIdx df category).map (fun s => df.getD s [])) ∧
    (subsetIdx df category).map
      (fun s => rowTitle ((reorder_category df category ts).getD s [])) = ts ∧
    (∀ sheet, bulk_update_order sheet (reorder_category df category ts) =
      (sheet.getD 0 []) ::
        (reorder_category df category ts).map (fun r => r.map Value.str)) := by
  set slots := subsetIdx df category with hslots
  set P := slots.map (fun i => (rowTitle (df.getD i []), i)) with hP
  set tm := buildTitleMap P with htm
  set newOrder := runPops tm ts with hNO
  have hre : reorder_category df category ts =
      (fillSlots (List.range df.length) (slots.zip newOrder)).map
        (fun i => df.getD i []) := rfl
  have hnd : slots.Nodup := by
    rw [hslots, subsetIdx]
    exact (List.nodup_range _).filter _
  have hlt : ∀ i ∈ slots, i < df.length := by
    intro i hi
    rw [hslots, subsetIdx] at hi
    exact List.mem_range.mp (List.mem_of_mem_filter hi)
  have hPfst : P.map Prod.fst = slots.map (fun i => rowTitle (df.getD i [])) := by
    rw [hP, List.map_map]
    rfl
  have hPsnd : P.map Prod.snd = slots := by
    have hid : (Prod.snd ∘ fun i => (rowTitle (df.getD i []), i)) = id := by
      funext i
      rfl
    rw [hP, List.map_map, hid, List.map_id]
  have hkeys := buildTitleMap_keys_nodup P
  have hpairs := buildTitleMap_pairs P
  have hsub : subsetTitles df category = slots.map (fun i => rowTitle (df.getD i [])) := rfl
  have hts : ts.Perm ((pairsOf tm).map Prod.fst) := by
    refine h.trans ?_
    rw [hsub, ← hPfst]
    exact (hpairs.map Prod.fst).symm
  obtain ⟨hperm, hfa⟩ := runPops_spec ts tm hkeys hts
  have hd : newOrder.Perm slots := by
    refine hperm.trans ?_
    rw [← hPsnd]
    exact hpairs.map Prod.snd
  have he : List.Forall₂ (fun t i => rowTitle (df.getD i []) = t) ts newOrder := by
    refine hfa.imp ?_
    intro a b hab
    have hmem : (a, b) ∈ P := hpairs.subset hab
    rw [hP] at hmem
    obtain ⟨j, _, hje⟩ := List.mem_map.mp hmem
    injection hje with h1 h2
    subst h2
    exact h1.symm ▸ rfl
  have hlenNO : newOrder.length = slots.length := hd.length_eq
  have hzipfst : (slots.zip newOrder).map Prod.fst = slots :=
    List.map_fst_zip _ _ (by omega)
  have hzipnd : ((slots.zip newOrder).map Prod.fst).Nodup := by
    rw [hzipfst]
    exact hnd
  have hziplt : ∀ p ∈ slots.zip newOrder, p.1 < (List.range df.length).length := by
    intro p hp
    rw [List.length_range]
    exact hlt p.1 (List.mem_zip hp).1
  have hframe : ∀ i, i < df.length → i ∉ slots →
      (reorder_category df category ts).get? i = df.get? i := by
    intro i hi hnin
    rw [hre, List.get?_map, fillSlots_get?_not_mem (by rw [hzipfst]; exact hnin),
      List.get?_range hi, get?_eq_some_getD hi []]
    rfl
  have hfinperm : (fillSlots (List.range df.length) (slots.zip newOrder)).Perm
      (List.range df.length) := by
    have hp2 := fillSlots_perm (slots.zip newOrder) (List.range df.length) hzipnd hziplt
    have hmap1 : (slots.zip newOrder).map (fun p => (List.range df.length).getD p.1 0) =
        slots := by
      have hcg : ∀ p ∈ slots.zip newOrder,
          (List.range df.length).getD p.1 0 = p.1 := by
        intro p hp
        rw [List.getD_eq_get?, List.get?_range (hlt p.1 (List.mem_zip hp).1)]
        rfl
      rw [List.map_congr_left hcg]
      exact hzipfst
    have hmap2 : (slots.zip newOrder).map Prod.snd = newOrder :=
      List.map_snd_zip _ _ (by omega)
    rw [hmap1, hmap2] at hp2
    have hstep : (List.range df.length ++ newOrder).Perm
        (List.range df.length ++ slots) := (List.perm_append_left_iff _).mpr hd
    exact (List.perm_append_right_iff slots).mp (hp2.trans hstep)
  have hpermdf : (reorder_category df category ts).Perm df := by
    rw [hre]
    refine (hfinperm.map _).trans ?_
    rw [range_map_getD]
  have hslotrows : slots.map (fun s => (reorder_category df category ts).getD s []) =
      newOrder.map (fun i => df.getD i []) := by
    apply List.ext_get
    · simp [hlenNO]
    · intro k hk1 hk2
      simp only [List.length_map] at hk1 hk2
      rw [List.get_map, List.get_map]
      have hkz : k < (slots.zip newOrder).length := by
        rw [List.length_zip]
        omega
      have hzel : (slots.zip newOrder).get ⟨k, hkz⟩ =
          (slots.get ⟨k, hk1⟩, newOrder.get ⟨k, hk2⟩) := by
        rw [List.get_zip]
      have hzmem : (slots.get ⟨k, hk1⟩, newOrder.get ⟨k, hk2⟩) ∈ slots.zip newOrder := by
        rw [← hzel]
        exact List.get_mem _ _ _
      have hsk : slots.get ⟨k, hk1⟩ < (List.range df.length).length := by
        rw [List.length_range]
        exact hlt _ (List.get_mem _ _ _)
      have hfi2 : (fillSlots (List.range df.length) (slots.zip newOrder)).get?
          (slots.get ⟨k, hk1⟩) = some (newOrder.get ⟨k, hk2⟩) :=
        fillSlots_get?_mem hzipnd _ hzmem hsk
      show (reorder_category df category ts).getD (slots.get ⟨k, hk1⟩) [] =
        df.getD (newOrder.get ⟨k, hk2⟩) []
      rw [hre, List.getD_eq_get?, List.get?_map, hfi2]
      rfl
  refine ⟨hpermdf, ?_, ?_, ?_, fun sheet => rfl⟩
  · intro i hi htyp
    refine hframe i hi ?_
    intro hin
    rw [hslots, subsetIdx] at hin
    exact htyp (by simpa using (List.mem_filter.mp hin).2)
  · rw [hslotrows]
    exact hd.map _
  · have : slots.map (fun s => rowTitle ((reorder_category df category ts).getD s [])) =
        newOrder.map (fun i => rowTitle (df.getD i [])) := by
      have := congrArg (List.map rowTitle) hslotrows
      simpa [List.map_map] using this
    rw [this]
    exact forall₂_map_eq he

/-- A three-row demo dataframe with two `X`-category rows around a `Y` row. -/
def demoDf : List Row := [["A", "X"], ["B", "Y"], ["C", "X"]]

/-- Concrete instance of `reorder_category_spec`: swapping the two `X` rows
puts their titles in the user-chosen order. -/
theorem reorder_category_spec_witness :
    (["C", "A"] : List String).Perm (subsetTitles demoDf "X") ∧
    (subsetIdx demoDf "X").map
      (fun s => rowTitle ((reorder_category demoDf "X" ["C", "A"]).getD s [])) =
      ["C", "A"] :=
  ⟨by decide, (reorder_category_spec demoDf "X" ["C", "A"] (by decide)).2.2.2.1⟩

end MediaTracker
